import Mathlib

/-!
Shallow embedding of the pycodex indexing and search core
(src/pycodex/core/indexer.py, src/pycodex/core/search.py,
src/pycodex/models/database.py) together with proofs about the
properties stated in the design document.

Modelling conventions:
* The SQLite store is a record of row lists (table order = insertion order)
  plus per-table id allocators; `rowid` reuse after deletes is not modelled
  (freshly allocated ids are strictly increasing).
* Python strings are Lean `String`s; Python `len`/slicing are character
  based, embedded through `.data` char lists.
* SQL `lower(col) LIKE lowerPat` with a pattern of the shape
  `%term%` is embedded as lower-cased substring containment; LIKE
  metacharacters occurring inside the term itself are not modelled.
* SQL `lower(NULL) LIKE p` evaluates to NULL, which filters the row out;
  an absent docstring therefore never matches, embedded as a `false`
  branch on `none`.
* Failures of the store and of the filesystem are injected through
  explicit oracles, since the pure embedding itself cannot fail.
-/

namespace Pycodex

/-! ### String helpers (character-list based, mirroring Python semantics) -/

/-- Lower-case a string character by character (Python `str.lower` /
SQL `lower`, restricted to ASCII as SQLite does). -/
def lowerStr (s : String) : String := String.mk (s.data.map Char.toLower)

/-- Character count of a string (Python `len`). -/
def strLen (s : String) : Nat := s.data.length

/-- First `n` characters of a string (Python `s[:n]`). -/
def strTake (s : String) (n : Nat) : String := String.mk (s.data.take n)

/-- Containment of one character list inside another. -/
def listContainsSub (pat l : List Char) : Bool :=
  (List.range (l.length + 1)).any (fun i => pat.isPrefixOf (l.drop i))

/-- Embeds `lower(field) LIKE '%' || lower(q) || '%'`. -/
def likeLower (field q : String) : Bool :=
  listContainsSub (lowerStr q).data (lowerStr field).data

/-- LIKE against a nullable docstring column: SQL NULL never matches. -/
def optDocLike (d : Option String) (q : String) : Bool :=
  match d with
  | some s => likeLower s q
  | none => false

/-- Drop trailing characters satisfying `p`. -/
def dropTrailing (p : Char → Bool) (l : List Char) : List Char :=
  (l.reverse.dropWhile p).reverse

/-- Embeds Python `str.strip()` (strip surrounding whitespace). -/
def pyStrip (s : String) : String :=
  String.mk (dropTrailing Char.isWhitespace (s.data.dropWhile Char.isWhitespace))

/-- Embeds Python `str(None)` rendering of an optional string inside an
f-string. -/
def optPyStr (o : Option String) : String :=
  match o with
  | some s => s
  | none => "None"

/-- Embeds `pathlib.Path.stem`: final path component without its last
suffix. -/
def pathStem (path : String) : String :=
  let name := (path.data.reverse.takeWhile (fun c => c != '/')).reverse
  match name.reverse.dropWhile (fun c => c != '.') with
  | [] => String.mk name
  | _ :: [] => String.mk name
  | _ :: rest => String.mk rest.reverse

/-! ### Catalog rows (models/database.py) -/

/-- Row of the `projects` table (timestamp columns, which no verified
claim mentions, are omitted). -/
structure ProjectRow where
  id : Nat
  name : String
  root_path : String
deriving DecidableEq, Repr

/-- Row of the `modules` table; `last_indexed` is an abstract clock value. -/
structure ModuleRow where
  id : Nat
  project_id : Nat
  name : String
  path : String
  docstring : Option String
  last_indexed : Nat
deriving DecidableEq, Repr

/-- Row of the `functions` table; the JSON-encoded list columns are kept
as lists. -/
structure FunctionRow where
  id : Nat
  module_id : Nat
  class_id : Option Nat
  name : String
  docstring : Option String
  lineno : Nat
  end_lineno : Nat
  args : List String
  decorators : List String
  return_annotation : Option String
deriving DecidableEq, Repr

/-- Row of the `classes` table. -/
structure ClassRow where
  id : Nat
  module_id : Nat
  name : String
  docstring : Option String
  lineno : Nat
  end_lineno : Nat
  base_classes : List String
  decorators : List String
deriving DecidableEq, Repr

/-- Row of the `imports` table. -/
structure ImportRow where
  id : Nat
  module_id : Nat
  module_name : String
  alias_ : Option String
  is_from_import : Bool
  parent_module : Option String
deriving DecidableEq, Repr

/-- Row of the `variables` table. -/
structure VariableRow where
  id : Nat
  module_id : Nat
  name : String
  lineno : Nat
  value : Option String
deriving DecidableEq, Repr

/-- The persisted catalog: one list per table (in insertion order) plus
per-table id allocators. -/
structure DB where
  projects : List ProjectRow
  modules : List ModuleRow
  functions : List FunctionRow
  classes : List ClassRow
  imports : List ImportRow
  vars : List VariableRow
  next_project_id : Nat
  next_module_id : Nat
  next_function_id : Nat
  next_class_id : Nat
  next_import_id : Nat
  next_variable_id : Nat
deriving DecidableEq, Repr

/-- The freshly initialised store. -/
def emptyDB : DB :=
  { projects := [], modules := [], functions := [], classes := [],
    imports := [], vars := [],
    next_project_id := 1, next_module_id := 1, next_function_id := 1,
    next_class_id := 1, next_import_id := 1, next_variable_id := 1 }

/-! ### Parsed-module descriptions (core/parser.py dataclasses) -/

/-- Mirrors `ImportInfo` (the `alias` field is spelled `alias_` because
`alias` is a Lean command name). -/
structure ImportInfo where
  module_name : String
  alias_ : Option String
  is_from_import : Bool
  parent_module : Option String
deriving DecidableEq, Repr

/-- Mirrors `FunctionInfo`. -/
structure FunctionInfo where
  name : String
  docstring : Option String
  lineno : Nat
  end_lineno : Nat
  args : List String
  decorators : List String
  return_annotation : Option String
deriving DecidableEq, Repr

/-- Mirrors `ClassInfo`. -/
structure ClassInfo where
  name : String
  docstring : Option String
  lineno : Nat
  end_lineno : Nat
  methods : List FunctionInfo
  base_classes : List String
  decorators : List String
deriving DecidableEq, Repr

/-- Mirrors `ModuleInfo`; the `variables` dict is kept as an
insertion-ordered association list `name ↦ (lineno, value)`. -/
structure ModuleInfo where
  path : String
  docstring : Option String
  imports : List ImportInfo
  functions : List FunctionInfo
  classes : List ClassInfo
  vars : List (String × Nat × String)
deriving DecidableEq, Repr

/-- Mirrors the `ModuleInfo.module_name` property (`self.path.stem`). -/
def ModuleInfo.module_name (mi : ModuleInfo) : String := pathStem mi.path

/-! ### Indexer (core/indexer.py) -/

/-- Embeds `PyIndexer._index_import`: insert one `Import` row. -/
def _index_import (db : DB) (module_id : Nat) (ii : ImportInfo) : DB :=
  { db with
    imports := db.imports ++
      [{ id := db.next_import_id, module_id := module_id,
         module_name := ii.module_name, alias_ := ii.alias_,
         is_from_import := ii.is_from_import,
         parent_module := ii.parent_module }],
    next_import_id := db.next_import_id + 1 }

/-- Embeds `PyIndexer._index_variable`: insert one `Variable` row. -/
def _index_variable (db : DB) (module_id : Nat) (name : String)
    (lineno : Nat) (value : String) : DB :=
  { db with
    vars := db.vars ++
      [{ id := db.next_variable_id, module_id := module_id,
         name := name, lineno := lineno, value := some value }],
    next_variable_id := db.next_variable_id + 1 }

/-- Embeds `PyIndexer._index_function`: insert one `Function` row with the
given (possibly null) owning class id. -/
def _index_function (db : DB) (module_id : Nat) (class_id : Option Nat)
    (fi : FunctionInfo) : DB :=
  { db with
    functions := db.functions ++
      [{ id := db.next_function_id, module_id := module_id,
         class_id := class_id, name := fi.name, docstring := fi.docstring,
         lineno := fi.lineno, end_lineno := fi.end_lineno, args := fi.args,
         decorators := fi.decorators,
         return_annotation := fi.return_annotation }],
    next_function_id := db.next_function_id + 1 }

/-- Embeds `PyIndexer._index_class`: insert the `Class` row, flush (so its
id is known), then insert one `Function` row per method carrying that id. -/
def _index_class (db : DB) (module_id : Nat) (ci : ClassInfo) : DB :=
  let cid := db.next_class_id
  let db1 :=
    { db with
      classes := db.classes ++
        [{ id := cid, module_id := module_id, name := ci.name,
           docstring := ci.docstring, lineno := ci.lineno,
           end_lineno := ci.end_lineno, base_classes := ci.base_classes,
           decorators := ci.decorators }],
      next_class_id := cid + 1 }
  ci.methods.foldl (fun d m => _index_function d module_id (some cid) m) db1

/-- Insertion of all child rows of one module, in source order: imports,
variables, classes (each class followed by its methods), then top-level
functions (`_index_module` lines 96-110). -/
def indexChildren (db : DB) (mid : Nat) (mi : ModuleInfo) : DB :=
  let db1 := mi.imports.foldl (fun d i => _index_import d mid i) db
  let db2 := mi.vars.foldl
    (fun d v => _index_variable d mid v.1 v.2.1 v.2.2) db1
  let db3 := mi.classes.foldl (fun d c => _index_class d mid c) db2
  mi.functions.foldl (fun d f => _index_function d mid none f) db3

/-- Embeds `module.last_indexed = datetime.datetime.utcnow()`. -/
def stampModule (db : DB) (mid now : Nat) : DB :=
  { db with
    modules := db.modules.map
      (fun m => if m.id == mid then { m with last_indexed := now } else m) }

/-- Embeds `PyIndexer._index_module`. On an existing `(project_id, path)`
module the four bulk deletes run first. Note that
`session.query(Class).filter_by(module_id=...).delete()` is a bulk delete:
it emits a plain `DELETE FROM classes ...`, which triggers no ORM-level
cascade, the schema declares no `ON DELETE CASCADE`, and SQLite foreign-key
enforcement is off by default — so method `Function` rows (those with a
non-null `class_id`) of the deleted classes are NOT removed. The embedding
reflects exactly that: only top-level functions (`class_id` null), class
rows, import rows and variable rows of the module are deleted. -/
def _index_module (db : DB) (project_id : Nat) (mi : ModuleInfo) (now : Nat) : DB :=
  match db.modules.find? (fun m => m.project_id == project_id && m.path == mi.path) with
  | some m =>
      let db1 :=
        { db with
          functions := db.functions.filter
            (fun f => !(f.module_id == m.id && f.class_id == none)),
          classes := db.classes.filter (fun c => !(c.module_id == m.id)),
          imports := db.imports.filter (fun i => !(i.module_id == m.id)),
          vars := db.vars.filter (fun v => !(v.module_id == m.id)) }
      stampModule (indexChildren db1 m.id mi) m.id now
  | none =>
      let mid := db.next_module_id
      let db1 :=
        { db with
          modules := db.modules ++
            [{ id := mid, project_id := project_id, name := mi.module_name,
               path := mi.path, docstring := mi.docstring,
               last_indexed := now }],
          next_module_id := mid + 1 }
      stampModule (indexChildren db1 mid mi) mid now

/-- Embeds `session.query(Project).filter_by(root_path=...).first()`
followed by create-on-absence (`index_project` lines 52-58); string
comparison is exact and case-sensitive as in SQLite. -/
def find_or_create_project (db : DB) (name root_path : String) : DB × Nat :=
  match db.projects.find? (fun p => p.root_path == root_path) with
  | some p => (db, p.id)
  | none =>
      let pid := db.next_project_id
      ({ db with
          projects := db.projects ++
            [{ id := pid, name := name, root_path := root_path }],
          next_project_id := pid + 1 }, pid)

/-- The per-module loop of `index_project` (line 61-62). -/
def indexModules (db : DB) (pid now : Nat) : List ModuleInfo → DB
  | [] => db
  | mi :: rest => indexModules (_index_module db pid mi now) pid now rest

/-- Committed effect of one successful `index_project` call: resolve or
create the project, then index every module description; returns the new
store and the project id. -/
def index_projectP (db : DB) (now : Nat) (name root_path : String)
    (mods : List ModuleInfo) : DB × Nat :=
  let fr := find_or_create_project db name root_path
  (indexModules fr.1 fr.2 now mods, fr.2)

/-- The per-module loop run inside the transaction, with a storage-failure
oracle: `failAt = some k` makes the k-th primitive step raise. Writes
accumulate in the pending session state. -/
def indexModulesTx (failAt : Option Nat) (pid now : Nat) :
    List ModuleInfo → Nat → DB → Except String DB
  | [], _, pending => Except.ok pending
  | mi :: rest, tick, pending =>
      if failAt = some tick then
        Except.error ("storage failure at step " ++ toString tick)
      else
        indexModulesTx failAt pid now rest (tick + 1)
          (_index_module pending pid mi now)

/-- Embeds `PyIndexer.index_project` with its transaction structure
(lines 48-72): the body runs against the session pending state; on success
`session.commit()` publishes it; on any raised failure the handler runs
`session.rollback(); raise e`, so the caller observes the original error
and the store keeps its pre-call contents. Step 0 is the project
resolution, steps 1..n the module writes, step n+1 the commit. -/
def index_project_body (failAt : Option Nat) (db : DB) (now : Nat)
    (name root_path : String) (mods : List ModuleInfo) :
    Except String (DB × Nat) :=
  if failAt = some 0 then Except.error "storage failure at step 0"
  else
    let fr := find_or_create_project db name root_path
    match indexModulesTx failAt fr.2 now mods 1 fr.1 with
    | Except.error e => Except.error e
    | Except.ok pending =>
        if failAt = some (mods.length + 1) then
          Except.error "storage failure at commit"
        else Except.ok (pending, fr.2)

/-- The commit/rollback wrapper around the body: success publishes the
pending state, any raised failure rolls back (the caller sees the original
error paired with the unchanged pre-call store). -/
def index_project (failAt : Option Nat) (db : DB) (now : Nat)
    (name root_path : String) (mods : List ModuleInfo) :
    Except (String × DB) (DB × Nat) :=
  match index_project_body failAt db now name root_path mods with
  | Except.ok r => Except.ok r
  | Except.error e => Except.error (e, db)

/-- Discriminator for `Except` outcomes. -/
def exceptIsOk : Except (String × DB) (DB × Nat) → Bool
  | Except.ok _ => true
  | Except.error _ => false

/-! ### Query engine (core/search.py) -/

/-- Shaped module-category search result. -/
structure ModuleResult where
  id : Nat
  name : String
  path : String
  docstring : Option String
deriving DecidableEq, Repr

/-- Shaped class-category search result. -/
structure ClassResult where
  id : Nat
  name : String
  module_name : String
  path : String
  lineno : Nat
  docstring : Option String
deriving DecidableEq, Repr

/-- Shaped function-category search result. -/
structure FunctionResult where
  id : Nat
  name : String
  module_name : String
  class_name : Option String
  path : String
  lineno : Nat
  docstring : Option String
deriving DecidableEq, Repr

/-- Shaped variable-category search result. -/
structure VariableResult where
  id : Nat
  name : String
  module_name : String
  path : String
  lineno : Nat
  value : Option String
deriving DecidableEq, Repr

/-- The four result categories returned by `search_code`. -/
structure SearchResults where
  modules : List ModuleResult
  classes : List ClassResult
  functions : List FunctionResult
  vars : List VariableResult
deriving DecidableEq, Repr

/-- Embeds the static helper `PySearch._truncate_text`: `None` and the
empty string map to `None` (Python falsiness of `not text`), text whose
character count is at most the maximum is returned unchanged, longer text
is cut to the first `max_length` characters plus an ellipsis marker. Call
sites pass the default 200 (docstrings) or 100 (variable values). -/
def _truncate_text (text : Option String) (max_length : Nat) : Option String :=
  match text with
  | none => none
  | some t =>
      if t.data.isEmpty then none
      else if strLen t ≤ max_length then some t
      else some (strTake t max_length ++ "...")

/-- Row lookup backing the SQL joins on `Module` (first row with the id). -/
def lookupModule (db : DB) (mid : Nat) : Option ModuleRow :=
  db.modules.find? (fun m => m.id == mid)

/-- Row lookup backing `select(Class).filter_by(id=...)`. -/
def lookupClass (db : DB) (cid : Nat) : Option ClassRow :=
  db.classes.find? (fun c => c.id == cid)

/-- The optional `Module.project_id == project_id` base filter. -/
def projOk (pid : Option Nat) (m : ModuleRow) : Bool :=
  match pid with
  | none => true
  | some p => m.project_id == p

/-- Free-text match condition on a `Module` row: name LIKE or docstring
LIKE. The Python source guards the docstring clause with
`if Module.docstring is not None`, but that tests the class attribute and
is always true, so the LIKE clause is always emitted; on a NULL docstring
the SQL LIKE is NULL and the row does not match — hence the `none => false`
behaviour of `optDocLike`. -/
def moduleFreeMatch (q : String) (m : ModuleRow) : Bool :=
  likeLower m.name q || optDocLike m.docstring q

/-- Free-text match condition on a `Class` row (the source builds the same
name-or-docstring disjunction; the `Class.docstring is None` conditional is
likewise an always-false attribute test). -/
def classFreeMatch (q : String) (c : ClassRow) : Bool :=
  likeLower c.name q || optDocLike c.docstring q

/-- Free-text match condition on a `Function` row. -/
def functionFreeMatch (q : String) (f : FunctionRow) : Bool :=
  likeLower f.name q || optDocLike f.docstring q

/-- Result shaping for a module row. -/
def toModuleResult (m : ModuleRow) : ModuleResult :=
  { id := m.id, name := m.name, path := m.path,
    docstring := _truncate_text m.docstring 200 }

/-- Result shaping for a class row joined with its module. -/
def mkClassResult (c : ClassRow) (m : ModuleRow) : ClassResult :=
  { id := c.id, name := c.name, module_name := m.name, path := m.path,
    lineno := c.lineno, docstring := _truncate_text c.docstring 200 }

/-- Embeds the `class_name` resolution: `if function.class_id:` followed by
a lookup of the parent class (absent when the lookup finds nothing). -/
def resolveClassName (db : DB) (f : FunctionRow) : Option String :=
  match f.class_id with
  | none => none
  | some cid => (lookupClass db cid).map (fun c => c.name)

/-- Result shaping for a function row joined with its module. -/
def mkFunctionResult (db : DB) (f : FunctionRow) (m : ModuleRow) : FunctionResult :=
  { id := f.id, name := f.name, module_name := m.name,
    class_name := resolveClassName db f, path := m.path, lineno := f.lineno,
    docstring := _truncate_text f.docstring 200 }

/-- Result shaping for a variable row joined with its module. -/
def mkVariableResult (v : VariableRow) (m : ModuleRow) : VariableResult :=
  { id := v.id, name := v.name, module_name := m.name, path := m.path,
    lineno := v.lineno, value := _truncate_text v.value 100 }

/-- Embeds `PySearch._free_text_search`: each category independently
filtered by the case-insensitive substring condition (and the optional
project filter through the joined module), capped at `limit` rows. -/
def _free_text_search (db : DB) (q : String) (pid : Option Nat) (limit : Nat) :
    SearchResults :=
  { modules :=
      ((db.modules.filter (fun m => moduleFreeMatch q m && projOk pid m)).take
        limit).map toModuleResult,
    classes :=
      (db.classes.filterMap (fun c =>
        match lookupModule db c.module_id with
        | some m =>
            if classFreeMatch q c && projOk pid m then some (mkClassResult c m)
            else none
        | none => none)).take limit,
    functions :=
      (db.functions.filterMap (fun f =>
        match lookupModule db f.module_id with
        | some m =>
            if functionFreeMatch q f && projOk pid m then
              some (mkFunctionResult db f m)
            else none
        | none => none)).take limit,
    vars :=
      (db.vars.filterMap (fun v =>
        match lookupModule db v.module_id with
        | some m =>
            if likeLower v.name q && projOk pid m then
              some (mkVariableResult v m)
            else none
        | none => none)).take limit }

/-- Word character as matched by the regex `\w` (ASCII fragment). -/
def isWordChar (c : Char) : Bool := c.isAlphanum || c == '_'

/-- Embeds `re.match(r"(\w+):(.+)", query)`: the match succeeds exactly
when the query starts with one or more word characters, immediately
followed by a colon, immediately followed by at least one non-newline
character; group 1 is the word-character run, group 2 the maximal
non-newline run after the colon (`re.match` anchors only the start). -/
def parseStructured (q : String) : Option (String × String) :=
  let k := q.data.takeWhile isWordChar
  if k.isEmpty then none
  else
    match q.data.dropWhile isWordChar with
    | ':' :: after =>
        let t := after.takeWhile (fun c => c != '\n')
        if t.isEmpty then none else some (String.mk k, String.mk t)
    | _ => none

/-- Name-only structured search over modules (`module:` kind). -/
def searchModulesByName (db : DB) (term : String) (pid : Option Nat)
    (limit : Nat) : List ModuleResult :=
  ((db.modules.filter (fun m => likeLower m.name term && projOk pid m)).take
    limit).map toModuleResult

/-- Name-only structured search over classes (`class:` kind). -/
def searchClassesByName (db : DB) (term : String) (pid : Option Nat)
    (limit : Nat) : List ClassResult :=
  (db.classes.filterMap (fun c =>
    match lookupModule db c.module_id with
    | some m =>
        if likeLower c.name term && projOk pid m then some (mkClassResult c m)
        else none
    | none => none)).take limit

/-- Name-only structured search over functions (`function:` / `method:`). -/
def searchFunctionsByName (db : DB) (term : String) (pid : Option Nat)
    (limit : Nat) : List FunctionResult :=
  (db.functions.filterMap (fun f =>
    match lookupModule db f.module_id with
    | some m =>
        if likeLower f.name term && projOk pid m then
          some (mkFunctionResult db f m)
        else none
    | none => none)).take limit

/-- Name-only structured search over variables (`var:` / `variable:`). -/
def searchVariablesByName (db : DB) (term : String) (pid : Option Nat)
    (limit : Nat) : List VariableResult :=
  (db.vars.filterMap (fun v =>
    match lookupModule db v.module_id with
    | some m =>
        if likeLower v.name term && projOk pid m then
          some (mkVariableResult v m)
        else none
    | none => none)).take limit

/-- Match condition of the `import:` kind: `module_name` LIKE or
`parent_module` LIKE (NULL parent never matches, as in `optDocLike`). -/
def importMatch (term : String) (i : ImportRow) : Bool :=
  likeLower i.module_name term ||
    (match i.parent_module with
     | some p => likeLower p term
     | none => false)

/-- Rendering of an import row as the `name` of its synthesized result
(Python f-strings; a None parent renders as the string None). -/
def renderImportName (i : ImportRow) : String :=
  let base :=
    if i.is_from_import then
      "from " ++ optPyStr i.parent_module ++ " import " ++ i.module_name
    else
      "import " ++ i.module_name
  match i.alias_ with
  | some a => if a.data.isEmpty then base else base ++ " as " ++ a
  | none => base

/-- The module-category result synthesized from one matching import row
joined with its owning module: the `id` field is the `module_id` of that
row (the owning module id), not the id of the row itself. -/
def importResult? (db : DB) (term : String) (pid : Option Nat)
    (i : ImportRow) : Option ModuleResult :=
  match lookupModule db i.module_id with
  | some m =>
      if importMatch term i && projOk pid m then
        some { id := i.module_id, name := renderImportName i, path := m.path,
               docstring := some ("Import in " ++ m.name) }
      else none
  | none => none

/-- Structured search over imports (`import:` kind; results land in the
modules category). -/
def searchImports (db : DB) (term : String) (pid : Option Nat)
    (limit : Nat) : List ModuleResult :=
  (db.imports.filterMap (importResult? db term pid)).take limit

/-- Docstring-only structured search (`doc:` / `docstring:` kind) across
modules, classes and functions; variables have no docstring column. -/
def searchDocs (db : DB) (term : String) (pid : Option Nat)
    (limit : Nat) : SearchResults :=
  { modules :=
      ((db.modules.filter (fun m => optDocLike m.docstring term && projOk pid m)).take
        limit).map toModuleResult,
    classes :=
      (db.classes.filterMap (fun c =>
        match lookupModule db c.module_id with
        | some m =>
            if optDocLike c.docstring term && projOk pid m then
              some (mkClassResult c m)
            else none
        | none => none)).take limit,
    functions :=
      (db.functions.filterMap (fun f =>
        match lookupModule db f.module_id with
        | some m =>
            if optDocLike f.docstring term && projOk pid m then
              some (mkFunctionResult db f m)
            else none
        | none => none)).take limit,
    vars := [] }

/-- Embeds `PySearch._structured_search`: parse the `kind:term` shape (on
failure fall back to free text on the whole query), strip the term, then
dispatch on the kind; an unrecognized kind falls back to free-text search
on the stripped term only. -/
def _structured_search (db : DB) (q : String) (pid : Option Nat)
    (limit : Nat) : SearchResults :=
  match parseStructured q with
  | none => _free_text_search db q pid limit
  | some (ty, rawTerm) =>
      let term := pyStrip rawTerm
      if ty == "module" then
        { modules := searchModulesByName db term pid limit,
          classes := [], functions := [], vars := [] }
      else if ty == "class" then
        { modules := [], classes := searchClassesByName db term pid limit,
          functions := [], vars := [] }
      else if ty == "function" || ty == "method" then
        { modules := [], classes := [],
          functions := searchFunctionsByName db term pid limit, vars := [] }
      else if ty == "var" || ty == "variable" then
        { modules := [], classes := [], functions := [],
          vars := searchVariablesByName db term pid limit }
      else if ty == "import" then
        { modules := searchImports db term pid limit,
          classes := [], functions := [], vars := [] }
      else if ty == "doc" || ty == "docstring" then
        searchDocs db term pid limit
      else
        _free_text_search db term pid limit

/-- Embeds the Python membership test `":" in query` (membership of a
one-character substring is membership of the character). -/
def containsColon (q : String) : Bool := q.data.any (fun c => c == ':')

/-- Embeds `PySearch.search_code`: queries containing a colon go through
structured search, everything else through free-text search. -/
def search_code (db : DB) (q : String) (pid : Option Nat) (limit : Nat) :
    SearchResults :=
  if containsColon q then _structured_search db q pid limit
  else _free_text_search db q pid limit

/-! ### File view (core/search.py, get_file_content) -/

/-- One entry of the `elements` list of `get_file_content`; the source
builds heterogeneous dicts, so fields absent for a given type are `none`
(variables carry no `end_lineno`/`docstring`, the rest no `value`). -/
structure Element where
  type : String
  name : String
  lineno : Nat
  end_lineno : Option Nat
  docstring : Option String
  value : Option String
deriving DecidableEq, Repr

/-- Comparison key of `elements.sort(key=lambda x: x["lineno"])`. -/
def elemLE (a b : Element) : Prop := a.lineno ≤ b.lineno

instance : DecidableRel elemLE := fun a b => Nat.decLe a.lineno b.lineno

instance : IsTotal Element elemLE := ⟨fun a b => Nat.le_total a.lineno b.lineno⟩

instance : IsTrans Element elemLE :=
  ⟨fun _ _ _ h1 h2 => Nat.le_trans h1 h2⟩

/-- Enumeration of the indexed elements of a module, in source order:
top-level functions, then each class immediately followed by its methods
(method names rendered ClassName.MethodName; the method query filters on
`class_id` only), then variables. -/
def buildElements (db : DB) (mid : Nat) : List Element :=
  let funcs := (db.functions.filter
      (fun f => f.module_id == mid && f.class_id == none)).map
    (fun f =>
      { type := "function", name := f.name, lineno := f.lineno,
        end_lineno := some f.end_lineno, docstring := f.docstring,
        value := none })
  let classBlocks := (db.classes.filter (fun c => c.module_id == mid)).map
    (fun c =>
      ({ type := "class", name := c.name, lineno := c.lineno,
         end_lineno := some c.end_lineno, docstring := c.docstring,
         value := none } : Element) ::
      (db.functions.filter (fun f => f.class_id == some c.id)).map
        (fun f =>
          { type := "method", name := c.name ++ "." ++ f.name,
            lineno := f.lineno, end_lineno := some f.end_lineno,
            docstring := f.docstring, value := none }))
  let varElems := (db.vars.filter (fun v => v.module_id == mid)).map
    (fun v =>
      { type := "variable", name := v.name, lineno := v.lineno,
        end_lineno := none, docstring := none, value := v.value })
  funcs ++ classBlocks.flatten ++ varElems

/-- Embeds `elements.sort(key=lambda x: x["lineno"])`. Python `list.sort`
is stable; `List.insertionSort` with the non-strict key comparison is the
(unique) stable sort for that key, proved so below. -/
def sortElements (l : List Element) : List Element := l.insertionSort elemLE

/-- Embeds `PySearch.get_file_content`. The filesystem is an explicit
oracle `fs`; `open(path).read()` either yields the content or raises, and
on a raise the content degrades to the placeholder string while the
element listing still runs. A path with no module row yields `none`. -/
def get_file_content (fs : String → Except String String) (db : DB)
    (path : String) : Option (String × List Element) :=
  match db.modules.find? (fun m => m.path == path) with
  | none => none
  | some m =>
      let content :=
        match fs path with
        | Except.ok c => c
        | Except.error e => "Error reading file: " ++ e
      some (content, sortElements (buildElements db m.id))

/-! ### Concrete inputs used by the individual claims -/

/-- Function description with the given name and line range and no other
detail. -/
def fnInfo (n : String) (l e : Nat) : FunctionInfo :=
  { name := n, docstring := none, lineno := l, end_lineno := e, args := [],
    decorators := [], return_annotation := none }

/-- First parse of `/r/m.py`: a class `C` with one method `m`, one
top-level function `f`, one variable. -/
def c1Mi1 : ModuleInfo :=
  { path := "/r/m.py", docstring := some "first doc", imports := [],
    functions := [fnInfo "f" 20 22],
    classes := [{ name := "C", docstring := none, lineno := 5, end_lineno := 9,
                  methods := [fnInfo "m" 7 8], base_classes := [],
                  decorators := [] }],
    vars := [("v", 1, "1")] }

/-- Second, smaller parse of the same path: no top-level function, the
class method renamed to `m2`. -/
def c1Mi2 : ModuleInfo :=
  { path := "/r/m.py", docstring := some "second doc", imports := [],
    functions := [],
    classes := [{ name := "C", docstring := none, lineno := 5, end_lineno := 9,
                  methods := [fnInfo "m2" 7 8], base_classes := [],
                  decorators := [] }],
    vars := [] }

/-- Store after indexing the first parse. -/
def c1Db1 : DB := (index_projectP emptyDB 1 "proj" "/r" [c1Mi1]).1

/-- Store after re-indexing the same module with the second parse. -/
def c1Db2 : DB := (index_projectP c1Db1 2 "proj" "/r" [c1Mi2]).1

/-- An empty module description for exercising the transaction wrapper. -/
def c2Mi : ModuleInfo :=
  { path := "/r/m.py", docstring := none, imports := [], functions := [],
    classes := [], vars := [] }

/-- Catalog of the file-view example: one module with a top-level function
at line 10, a class at line 5 owning a method at line 7, and a variable at
line 1. -/
def c6Db : DB :=
  { emptyDB with
    modules := [{ id := 1, project_id := 1, name := "mod",
                  path := "/r/mod.py", docstring := none, last_indexed := 0 }],
    functions := [{ id := 1, module_id := 1, class_id := none, name := "f",
                    docstring := none, lineno := 10, end_lineno := 12,
                    args := [], decorators := [], return_annotation := none },
                  { id := 2, module_id := 1, class_id := some 1, name := "m",
                    docstring := none, lineno := 7, end_lineno := 8,
                    args := [], decorators := [], return_annotation := none }],
    classes := [{ id := 1, module_id := 1, name := "C", docstring := none,
                  lineno := 5, end_lineno := 9, base_classes := [],
                  decorators := [] }],
    vars := [{ id := 1, module_id := 1, name := "v", lineno := 1,
               value := some "1" }] }

/-- A filesystem oracle whose reads always succeed. -/
def c6fs : String → Except String String := fun _ => Except.ok "file contents"

/-- Expected first element of the file view: the variable at line 1. -/
def c6VarElem : Element :=
  { type := "variable", name := "v", lineno := 1, end_lineno := none,
    docstring := none, value := some "1" }

/-- Expected second element: the class at line 5. -/
def c6ClassElem : Element :=
  { type := "class", name := "C", lineno := 5, end_lineno := some 9,
    docstring := none, value := none }

/-- Expected third element: the method at line 7, named `C.m`. -/
def c6MethodElem : Element :=
  { type := "method", name := "C.m", lineno := 7, end_lineno := some 8,
    docstring := none, value := none }

/-- Expected fourth element: the top-level function at line 10. -/
def c6FunElem : Element :=
  { type := "function", name := "f", lineno := 10, end_lineno := some 12,
    docstring := none, value := none }

/-- Catalog with one indexed module and one function, for the error-path
claims about `get_file_content`. -/
def c7Db : DB :=
  { emptyDB with
    modules := [{ id := 1, project_id := 1, name := "m", path := "/r/m.py",
                  docstring := none, last_indexed := 0 }],
    functions := [{ id := 1, module_id := 1, class_id := none, name := "f",
                    docstring := none, lineno := 3, end_lineno := 4,
                    args := [], decorators := [], return_annotation := none }] }

/-- A filesystem oracle whose reads always fail. -/
def c7fsFail : String → Except String String := fun _ => Except.error "boom"

/-- Module row with no docstring. -/
def c8Mod : ModuleRow :=
  { id := 1, project_id := 1, name := "alpha", path := "/r/alpha.py",
    docstring := none, last_indexed := 0 }

/-- Catalog holding only `c8Mod`. -/
def c8Db : DB := { emptyDB with modules := [c8Mod] }

/-- Class row with no docstring. -/
def c8Class : ClassRow :=
  { id := 1, module_id := 1, name := "K", docstring := none, lineno := 1,
    end_lineno := 2, base_classes := [], decorators := [] }

/-- Function row with no docstring. -/
def c8Fun : FunctionRow :=
  { id := 1, module_id := 1, class_id := none, name := "g",
    docstring := none, lineno := 1, end_lineno := 2, args := [],
    decorators := [], return_annotation := none }

/-- Catalog with one module (id 5) owning two distinct import rows that
both match the term `util`. -/
def c10Db : DB :=
  { emptyDB with
    modules := [{ id := 5, project_id := 1, name := "a", path := "/r/a.py",
                  docstring := none, last_indexed := 0 }],
    imports := [{ id := 1, module_id := 5, module_name := "util",
                  alias_ := none, is_from_import := false,
                  parent_module := none },
                { id := 2, module_id := 5, module_name := "helpers",
                  alias_ := none, is_from_import := true,
                  parent_module := some "util" }] }

/-! ### Helper lemmas -/

theorem foldl_index_function_modules (mid : Nat) (cid : Option Nat) :
    ∀ (l : List FunctionInfo) (db : DB),
      (l.foldl (fun d m => _index_function d mid cid m) db).modules = db.modules := by
  intro l
  induction l with
  | nil => intro db; rfl
  | cons fi rest ih =>
      intro db
      rw [List.foldl_cons, ih]
      rfl

theorem _index_class_modules (db : DB) (mid : Nat) (ci : ClassInfo) :
    (_index_class db mid ci).modules = db.modules := by
  simp only [_index_class]
  rw [foldl_index_function_modules]

theorem foldl_index_class_modules (mid : Nat) :
    ∀ (l : List ClassInfo) (db : DB),
      (l.foldl (fun d c => _index_class d mid c) db).modules = db.modules := by
  intro l
  induction l with
  | nil => intro db; rfl
  | cons ci rest ih =>
      intro db
      rw [List.foldl_cons, ih, _index_class_modules]

theorem foldl_index_import_modules (mid : Nat) :
    ∀ (l : List ImportInfo) (db : DB),
      (l.foldl (fun d i => _index_import d mid i) db).modules = db.modules := by
  intro l
  induction l with
  | nil => intro db; rfl
  | cons ii rest ih =>
      intro db
      rw [List.foldl_cons, ih]
      rfl

theorem foldl_index_variable_modules (mid : Nat) :
    ∀ (l : List (String × Nat × String)) (db : DB),
      (l.foldl (fun d v => _index_variable d mid v.1 v.2.1 v.2.2) db).modules
        = db.modules := by
  intro l
  induction l with
  | nil => intro db; rfl
  | cons v rest ih =>
      intro db
      rw [List.foldl_cons, ih]
      rfl

theorem indexChildren_modules (db : DB) (mid : Nat) (mi : ModuleInfo) :
    (indexChildren db mid mi).modules = db.modules := by
  simp only [indexChildren]
  rw [foldl_index_function_modules, foldl_index_class_modules,
    foldl_index_variable_modules, foldl_index_import_modules]

theorem foldl_index_function_projects (mid : Nat) (cid : Option Nat) :
    ∀ (l : List FunctionInfo) (db : DB),
      (l.foldl (fun d m => _index_function d mid cid m) db).projects = db.projects := by
  intro l
  induction l with
  | nil => intro db; rfl
  | cons fi rest ih =>
      intro db
      rw [List.foldl_cons, ih]
      rfl

theorem _index_class_projects (db : DB) (mid : Nat) (ci : ClassInfo) :
    (_index_class db mid ci).projects = db.projects := by
  simp only [_index_class]
  rw [foldl_index_function_projects]

theorem foldl_index_class_projects (mid : Nat) :
    ∀ (l : List ClassInfo) (db : DB),
      (l.foldl (fun d c => _index_class d mid c) db).projects = db.projects := by
  intro l
  induction l with
  | nil => intro db; rfl
  | cons ci rest ih =>
      intro db
      rw [List.foldl_cons, ih, _index_class_projects]

theorem foldl_index_import_projects (mid : Nat) :
    ∀ (l : List ImportInfo) (db : DB),
      (l.foldl (fun d i => _index_import d mid i) db).projects = db.projects := by
  intro l
  induction l with
  | nil => intro db; rfl
  | cons ii rest ih =>
      intro db
      rw [List.foldl_cons, ih]
      rfl

theorem foldl_index_variable_projects (mid : Nat) :
    ∀ (l : List (String × Nat × String)) (db : DB),
      (l.foldl (fun d v => _index_variable d mid v.1 v.2.1 v.2.2) db).projects
        = db.projects := by
  intro l
  induction l with
  | nil => intro db; rfl
  | cons v rest ih =>
      intro db
      rw [List.foldl_cons, ih]
      rfl

theorem indexChildren_projects (db : DB) (mid : Nat) (mi : ModuleInfo) :
    (indexChildren db mid mi).projects = db.projects := by
  simp only [indexChildren]
  rw [foldl_index_function_projects, foldl_index_class_projects,
    foldl_index_variable_projects, foldl_index_import_projects]

theorem stampModule_projects (db : DB) (mid now : Nat) :
    (stampModule db mid now).projects = db.projects := rfl

theorem _index_module_projects (db : DB) (pid : Nat) (mi : ModuleInfo) (now : Nat) :
    (_index_module db pid mi now).projects = db.projects := by
  simp only [_index_module]
  split
  · rw [stampModule_projects, indexChildren_projects]
  · rw [stampModule_projects, indexChildren_projects]

theorem indexModules_projects (pid now : Nat) :
    ∀ (mods : List ModuleInfo) (db : DB),
      (indexModules db pid now mods).projects = db.projects := by
  intro mods
  induction mods with
  | nil => intro db; rfl
  | cons mi rest ih =>
      intro db
      rw [indexModules, ih, _index_module_projects]

theorem parseStructured_colon {q kind term : String}
    (h : parseStructured q = some (kind, term)) : containsColon q = true := by
  simp only [parseStructured] at h
  split at h
  · simp at h
  · split at h
    · rename_i after heq
      have hmem : ':' ∈ q.data := by
        have hsplit := List.takeWhile_append_dropWhile isWordChar q.data
        rw [← hsplit, heq]
        exact List.mem_append_right _ (List.mem_cons_self _ _)
      simp only [containsColon, List.any_eq_true]
      exact ⟨':', hmem, by simp⟩
    · simp at h

theorem importResult?_id {db : DB} {term : String} {pid : Option Nat}
    {i : ImportRow} {r : ModuleResult}
    (h : importResult? db term pid i = some r) : r.id = i.module_id := by
  simp only [importResult?] at h
  split at h
  · split at h
    · cases h
      rfl
    · simp at h
  · simp at h

/-! ### Claim C5 -/

/-- C5: the truncation helper returns nonempty text unchanged when its
character count is at or under the maximum, returns the first `max`
characters followed by the ellipsis marker when it is longer, and maps
both absent and empty text to an absent value (never an empty string). -/
theorem claim_C5_truncation_policy (t : String) (maxLen : Nat) :
    (t ≠ "" → strLen t ≤ maxLen → _truncate_text (some t) maxLen = some t)
    ∧ (maxLen < strLen t →
        _truncate_text (some t) maxLen = some (strTake t maxLen ++ "..."))
    ∧ _truncate_text none maxLen = none
    ∧ _truncate_text (some "") maxLen = none := by
  refine ⟨?_, ?_, rfl, rfl⟩
  · intro hne hle
    have hdata : ¬ t.data.isEmpty = true := by
      intro hemp
      exact hne (String.ext (by simpa using hemp))
    simp only [_truncate_text]
    rw [if_neg hdata, if_pos hle]
  · intro hlt
    have hdata : ¬ t.data.isEmpty = true := by
      intro hemp
      have hnil : t.data = [] := by simpa using hemp
      simp only [strLen, hnil, List.length_nil] at hlt
      exact absurd hlt (Nat.not_lt_zero _)
    simp only [_truncate_text]
    rw [if_neg hdata, if_neg (by omega)]

set_option maxRecDepth 8192 in
/-- Witness for C5 at concrete inputs: a 150-character docstring is
returned unchanged and a 250-character docstring is cut to its first 200
characters plus the marker. -/
theorem claim_C5_truncation_policy_witness :
    _truncate_text (some (String.mk (List.replicate 150 'd'))) 200
        = some (String.mk (List.replicate 150 'd'))
    ∧ _truncate_text (some (String.mk (List.replicate 250 'd'))) 200
        = some (strTake (String.mk (List.replicate 250 'd')) 200 ++ "...") := by
  constructor
  · exact (claim_C5_truncation_policy (String.mk (List.replicate 150 'd')) 200).1
      (by decide) (by decide)
  · exact (claim_C5_truncation_policy (String.mk (List.replicate 250 'd')) 200).2.1
      (by decide)

/-! ### Claim C7 -/

/-- C7: `get_file_content` returns the structured not-found value (rather
than raising) when no module row matches the path; and when the module
exists but the filesystem read fails, the content field degrades to the
placeholder error-description string while the elements list is still
assembled exactly as in the successful case — the read failure never
aborts the call. -/
theorem claim_C7_get_file_content_error_behavior (db : DB) (path : String)
    (fs : String → Except String String) :
    (db.modules.find? (fun m => m.path == path) = none →
      get_file_content fs db path = none)
    ∧ (∀ (m : ModuleRow) (e : String),
        db.modules.find? (fun m2 => m2.path == path) = some m →
        fs path = Except.error e →
        get_file_content fs db path
          = some ("Error reading file: " ++ e,
              sortElements (buildElements db m.id))) := by
  constructor
  · intro h
    simp only [get_file_content, h]
  · intro m e hfind hfs
    simp only [get_file_content, hfind, hfs]

/-- Witness for C7: on a catalog holding `/r/m.py`, an unknown path gives
the not-found value and a failing filesystem read degrades the content to
the placeholder while the elements are still listed. -/
theorem claim_C7_get_file_content_error_behavior_witness :
    get_file_content c7fsFail c7Db "/zzz" = none
    ∧ get_file_content c7fsFail c7Db "/r/m.py"
        = some ("Error reading file: boom",
            sortElements (buildElements c7Db 1)) := by
  constructor
  · exact (claim_C7_get_file_content_error_behavior c7Db "/zzz" c7fsFail).1 (by decide)
  · exact (claim_C7_get_file_content_error_behavior c7Db "/r/m.py" c7fsFail).2
      { id := 1, project_id := 1, name := "m", path := "/r/m.py",
        docstring := none, last_indexed := 0 } "boom" (by decide) rfl

/-! ### Claim C8 -/

/-- C8: in free-text search, a catalog row (module, class or function)
whose docstring is absent can never match through its docstring clause but
can still match through its name: the row-match condition degenerates to
the name condition alone, and on a catalog whose modules all lack
docstrings the module results are exactly the name matches. The
docstring clause is not skipped — it is present and evaluates to no-match
on NULL. -/
theorem claim_C8_null_docstring_asymmetry (db : DB) (q : String)
    (pid : Option Nat) (limit : Nat) (m : ModuleRow) (c : ClassRow)
    (f : FunctionRow) :
    (m.docstring = none → moduleFreeMatch q m = likeLower m.name q)
    ∧ (c.docstring = none → classFreeMatch q c = likeLower c.name q)
    ∧ (f.docstring = none → functionFreeMatch q f = likeLower f.name q)
    ∧ ((∀ mr ∈ db.modules, mr.docstring = none) →
        (_free_text_search db q pid limit).modules
          = ((db.modules.filter
                (fun mr => likeLower mr.name q && projOk pid mr)).take
              limit).map toModuleResult) := by
  refine ⟨?_, ?_, ?_, ?_⟩
  · intro h
    simp [moduleFreeMatch, optDocLike, h]
  · intro h
    simp [classFreeMatch, optDocLike, h]
  · intro h
    simp [functionFreeMatch, optDocLike, h]
  · intro hall
    have hfil : db.modules.filter (fun mr => moduleFreeMatch q mr && projOk pid mr)
        = db.modules.filter (fun mr => likeLower mr.name q && projOk pid mr) :=
      List.filter_congr
        (fun x hx => by simp [moduleFreeMatch, optDocLike, hall x hx])
    simp only [_free_text_search, hfil]

/-- Witness for C8: the docstring-free module row `alpha` matches the
query `alp` purely by name (the row-match condition equals the name
condition), and the free-text module results on the concrete catalog are
exactly the name matches. -/
theorem claim_C8_null_docstring_asymmetry_witness :
    (moduleFreeMatch "alp" c8Mod = likeLower c8Mod.name "alp")
    ∧ (_free_text_search c8Db "alp" none 20).modules
        = ((c8Db.modules.filter
              (fun mr => likeLower mr.name "alp" && projOk none mr)).take
            20).map toModuleResult := by
  constructor
  · exact (claim_C8_null_docstring_asymmetry c8Db "alp" none 20 c8Mod c8Class c8Fun).1 rfl
  · exact (claim_C8_null_docstring_asymmetry c8Db "alp" none 20 c8Mod c8Class c8Fun).2.2.2
      (by decide)

/-! ### Claim C10 -/

/-- C10: every module-category result synthesized by the structured
`import:` search carries as its `id` the owning module id (the import
row's `module_id`), not the id of the import row itself; consequently two
distinct import rows of the same module yield results sharing one id, as
the concrete two-import catalog shows. -/
theorem claim_C10_import_result_id (db : DB) (term : String)
    (pid : Option Nat) (limit : Nat) :
    (∀ r ∈ searchImports db term pid limit,
        ∃ i ∈ db.imports, r.id = i.module_id)
    ∧ (search_code c10Db "import:util" none 20).modules.map
        (fun r => r.id) = [5, 5] := by
  constructor
  · intro r hr
    have hr2 : r ∈ db.imports.filterMap (importResult? db term pid) :=
      List.mem_of_mem_take hr
    rcases List.mem_filterMap.mp hr2 with ⟨i, hi, hsome⟩
    exact ⟨i, hi, importResult?_id hsome⟩
  · decide

/-- Witness for C10: the first synthesized result of the two-import
catalog indeed carries the id of an import row's owning module. -/
theorem claim_C10_import_result_id_witness :
    ∃ i ∈ c10Db.imports,
      ({ id := 5, name := "import util", path := "/r/a.py",
         docstring := some "Import in a" } : ModuleResult).id = i.module_id := by
  exact (claim_C10_import_result_id c10Db "util" none 20).1
    { id := 5, name := "import util", path := "/r/a.py",
      docstring := some "Import in a" } (by decide)

/-! ### Claim C4 -/

/-- C4: a structured query whose kind prefix is none of the recognized
kinds (module, class, function, method, var, variable, import, doc,
docstring) falls back to free-text search on the stripped term alone, not
on the original `kind:term` string; in particular the query `bogus:Foo`
behaves identically to the query `Foo`. -/
theorem claim_C4_unknown_kind_fallback (db : DB) (pid : Option Nat)
    (limit : Nat) (q kind term : String)
    (hp : parseStructured q = some (kind, term))
    (hk : kind ∉ (["module", "class", "function", "method", "var",
        "variable", "import", "doc", "docstring"] : List String)) :
    search_code db q pid limit = _free_text_search db (pyStrip term) pid limit
    ∧ search_code db "bogus:Foo" pid limit = search_code db "Foo" pid limit := by
  constructor
  · have hc : containsColon q = true := parseStructured_colon hp
    simp only [search_code, hc, if_true]
    simp only [_structured_search, hp]
    simp only [List.mem_cons, List.not_mem_nil, or_false, not_or] at hk
    obtain ⟨h1, h2, h3, h4, h5, h6, h7, h8, h9⟩ := hk
    simp [h1, h2, h3, h4, h5, h6, h7, h8, h9]
  · rfl

/-- Witness for C4 at the concrete query `bogus:Foo` over the empty
catalog. -/
theorem claim_C4_unknown_kind_fallback_witness :
    search_code emptyDB "bogus:Foo" none 20
      = _free_text_search emptyDB (pyStrip "Foo") none 20 := by
  exact (claim_C4_unknown_kind_fallback emptyDB none 20 "bogus:Foo" "bogus"
    "Foo" (by decide) (by decide)).1

/-! ### Claim C6 -/

theorem filter_orderedInsert (k : Nat) (a : Element) (l : List Element) :
    (l.orderedInsert elemLE a).filter (fun e => e.lineno == k)
      = (a :: l).filter (fun e => e.lineno == k) := by
  induction l with
  | nil => rfl
  | cons b t ih =>
      simp only [List.orderedInsert]
      by_cases hab : elemLE a b
      · rw [if_pos hab]
      · rw [if_neg hab]
        have hba : b.lineno < a.lineno := Nat.lt_of_not_le hab
        simp only [List.filter_cons, ih]
        by_cases hak : a.lineno = k
        · have hbk : ¬ b.lineno = k := by omega
          simp [hak, hbk]
        · simp [hak]

theorem filter_insertionSort (k : Nat) :
    ∀ l : List Element,
      (l.insertionSort elemLE).filter (fun e => e.lineno == k)
        = l.filter (fun e => e.lineno == k) := by
  intro l
  induction l with
  | nil => rfl
  | cons a t ih =>
      simp only [List.insertionSort]
      rw [filter_orderedInsert]
      simp only [List.filter_cons, ih]

/-- C6: the elements list of the file view is sorted ascending by line
number by a stable sort — it is a permutation of the enumerated elements
(functions, then classes each followed by its methods, then variables)
and entries with equal line numbers keep that enumeration order — and on
the concrete module with a function at line 10, a class at line 5 with a
method at line 7 and a variable at line 1, `get_file_content` returns
variable(1), class(5), method C.m(7), function(10). -/
theorem claim_C6_file_view_ordering :
    (∀ l : List Element, List.Sorted elemLE (sortElements l))
    ∧ (∀ l : List Element, List.Perm (sortElements l) l)
    ∧ (∀ (l : List Element) (k : Nat),
        (sortElements l).filter (fun e => e.lineno == k)
          = l.filter (fun e => e.lineno == k))
    ∧ get_file_content c6fs c6Db "/r/mod.py"
        = some ("file contents",
            [c6VarElem, c6ClassElem, c6MethodElem, c6FunElem]) := by
  refine ⟨?_, ?_, ?_, ?_⟩
  · intro l
    exact List.sorted_insertionSort elemLE l
  · intro l
    exact List.perm_insertionSort elemLE l
  · intro l k
    exact filter_insertionSort k l
  · decide

/-! ### Claim C9 -/

/-- C9: when `_index_module` hits an existing `(project_id, path)` module
row, the modules table is left unchanged except that the row with that
module id gets `last_indexed` restamped to the current time — in
particular the stored name and docstring keep their previous values, and
a new docstring in the latest description is never written to the row. -/
theorem claim_C9_reindex_preserves_module_row (db : DB) (pid now : Nat)
    (mi : ModuleInfo) (m : ModuleRow)
    (h : db.modules.find?
        (fun r => r.project_id == pid && r.path == mi.path) = some m) :
    (_index_module db pid mi now).modules
      = db.modules.map
          (fun r => if r.id == m.id then { r with last_indexed := now } else r) := by
  simp only [_index_module, h]
  simp only [stampModule, indexChildren_modules]

/-- Witness for C9: re-indexing the already-indexed `/r/m.py` with a
description of the same path restamps `last_indexed` and leaves the rest
of the module row alone. -/
theorem claim_C9_reindex_preserves_module_row_witness :
    (_index_module c7Db 1 c2Mi 7).modules
      = c7Db.modules.map
          (fun r => if r.id == 1 then { r with last_indexed := 7 } else r) := by
  exact claim_C9_reindex_preserves_module_row c7Db 1 7 c2Mi
    { id := 1, project_id := 1, name := "m", path := "/r/m.py",
      docstring := none, last_indexed := 0 } (by decide)

/-! ### Claim C3 -/

/-- C3: two `index_project` calls with the same root path (exact,
case-sensitive string identity) resolve to the same project row: when no
project with that root existed before, the second call returns the id
created by the first, changes no project row (in particular it does not
adopt the second name), and exactly one project row with that root path
exists after the first call. -/
theorem claim_C3_project_uniqueness_by_root_path (db : DB)
    (now1 now2 : Nat) (name1 name2 root : String)
    (mods1 mods2 : List ModuleInfo)
    (h : ∀ p ∈ db.projects, p.root_path ≠ root) :
    (index_projectP (index_projectP db now1 name1 root mods1).1
        now2 name2 root mods2).2
      = (index_projectP db now1 name1 root mods1).2
    ∧ (index_projectP (index_projectP db now1 name1 root mods1).1
        now2 name2 root mods2).1.projects
      = (index_projectP db now1 name1 root mods1).1.projects
    ∧ ((index_projectP db now1 name1 root mods1).1.projects.filter
        (fun p => p.root_path == root)).length = 1 := by
  have hnone : db.projects.find? (fun p => p.root_path == root) = none :=
    List.find?_eq_none.mpr (fun p hp => by simp [h p hp])
  have hid1 : (index_projectP db now1 name1 root mods1).2 = db.next_project_id := by
    simp only [index_projectP, find_or_create_project, hnone]
  have hproj1 : (index_projectP db now1 name1 root mods1).1.projects
      = db.projects
        ++ [ProjectRow.mk db.next_project_id name1 root] := by
    simp only [index_projectP, find_or_create_project, hnone]
    rw [indexModules_projects]
  have hfind2 : (index_projectP db now1 name1 root mods1).1.projects.find?
      (fun p => p.root_path == root)
      = some (ProjectRow.mk db.next_project_id name1 root) := by
    rw [hproj1, List.find?_append, hnone]
    simp
  have hid2 : (index_projectP (index_projectP db now1 name1 root mods1).1
      now2 name2 root mods2).2 = db.next_project_id := by
    generalize hA : (index_projectP db now1 name1 root mods1).1 = A at hfind2 ⊢
    simp only [index_projectP, find_or_create_project, hfind2]
  have hproj2 : (index_projectP (index_projectP db now1 name1 root mods1).1
      now2 name2 root mods2).1.projects
      = (index_projectP db now1 name1 root mods1).1.projects := by
    generalize hA : (index_projectP db now1 name1 root mods1).1 = A at hfind2 ⊢
    simp only [index_projectP, find_or_create_project, hfind2]
    rw [indexModules_projects]
  refine ⟨hid2.trans hid1.symm, hproj2, ?_⟩
  rw [hproj1, List.filter_append]
  have hnil : db.projects.filter (fun p => p.root_path == root) = [] :=
    List.filter_eq_nil_iff.mpr (fun p hp => by simp [h p hp])
  rw [hnil]
  simp

/-- Witness for C3: indexing the empty store twice under root `/r` with
the names `a` and `b` reuses project id 1 and keeps a single project
row. -/
theorem claim_C3_project_uniqueness_by_root_path_witness :
    (index_projectP (index_projectP emptyDB 1 "a" "/r" []).1 2 "b" "/r" []).2
      = (index_projectP emptyDB 1 "a" "/r" []).2
    ∧ (index_projectP (index_projectP emptyDB 1 "a" "/r" []).1 2 "b" "/r" []).1.projects
      = (index_projectP emptyDB 1 "a" "/r" []).1.projects
    ∧ ((index_projectP emptyDB 1 "a" "/r" []).1.projects.filter
        (fun p => p.root_path == "/r")).length = 1 := by
  exact claim_C3_project_uniqueness_by_root_path emptyDB 1 2 "a" "b" "/r" [] []
    (by simp [emptyDB])

/-! ### Claim C2 -/

theorem indexModulesTx_none (pid now : Nat) :
    ∀ (mods : List ModuleInfo) (tick : Nat) (db : DB),
      indexModulesTx none pid now mods tick db
        = Except.ok (indexModules db pid now mods) := by
  intro mods
  induction mods with
  | nil => intro tick db; rfl
  | cons mi rest ih =>
      intro tick db
      simp only [indexModulesTx, indexModules]
      rw [if_neg (by simp : ¬ (none : Option Nat) = some tick)]
      exact ih _ _

theorem indexModulesTx_ok_ge (pid now k : Nat) :
    ∀ (mods : List ModuleInfo) (tick : Nat) (db : DB),
      tick + mods.length ≤ k →
      indexModulesTx (some k) pid now mods tick db
        = Except.ok (indexModules db pid now mods) := by
  intro mods
  induction mods with
  | nil => intro tick db h; rfl
  | cons mi rest ih =>
      intro tick db h
      simp only [List.length_cons] at h
      simp only [indexModulesTx, indexModules]
      rw [if_neg (by intro hc; injection hc with hk; omega)]
      exact ih (tick + 1) _ (by omega)

theorem indexModulesTx_fails (pid now k : Nat) :
    ∀ (mods : List ModuleInfo) (tick : Nat) (db : DB),
      tick ≤ k → k < tick + mods.length →
      ∃ e, indexModulesTx (some k) pid now mods tick db = Except.error e := by
  intro mods
  induction mods with
  | nil =>
      intro tick db h1 h2
      simp only [List.length_nil, Nat.add_zero] at h2
      exact absurd h2 (Nat.not_lt.mpr h1)
  | cons mi rest ih =>
      intro tick db h1 h2
      simp only [List.length_cons] at h2
      by_cases hkt : k = tick
      · refine ⟨"storage failure at step " ++ toString tick, ?_⟩
        simp only [indexModulesTx]
        rw [if_pos (by rw [hkt])]
      · obtain ⟨e, he⟩ := ih (tick + 1) (_index_module db pid mi now)
          (by omega) (by omega)
        refine ⟨e, ?_⟩
        simp only [indexModulesTx]
        rw [if_neg (by intro hc; injection hc with hk; omega)]
        exact he

/-- C2: `index_project` is atomic. Whenever the call reports a failure,
the store it leaves behind is exactly the pre-call store (full rollback)
and the original error is the one surfaced; with no failure the call
commits all its writes as one unit (the committed store is the full
`index_projectP` result); and an injected failure at any step of the call
(project resolution, any module write, or the commit) surfaces as a
failure rather than being swallowed. -/
theorem claim_C2_index_project_atomicity (failAt : Option Nat) (db : DB)
    (now : Nat) (name root : String) (mods : List ModuleInfo) :
    (∀ (e : String) (db2 : DB),
        index_project failAt db now name root mods = Except.error (e, db2) →
        db2 = db)
    ∧ index_project none db now name root mods
        = Except.ok (index_projectP db now name root mods)
    ∧ (∀ k : Nat, k ≤ mods.length + 1 →
        exceptIsOk (index_project (some k) db now name root mods) = false) := by
  refine ⟨?_, ?_, ?_⟩
  · intro e db2 hres
    simp only [index_project] at hres
    cases hb : index_project_body failAt db now name root mods with
    | ok r =>
        rw [hb] at hres
        exact absurd hres (by simp)
    | error e0 =>
        rw [hb] at hres
        simp only [Except.error.injEq, Prod.mk.injEq] at hres
        exact hres.2.symm
  · simp only [index_project, index_project_body]
    rw [if_neg (by simp : ¬ (none : Option Nat) = some 0)]
    rw [indexModulesTx_none]
    rfl
  · intro k hk
    suffices hbody : ∃ e, index_project_body (some k) db now name root mods
        = Except.error e by
      obtain ⟨e, he⟩ := hbody
      simp only [index_project, he]
      rfl
    by_cases hk0 : k = 0
    · subst hk0
      refine ⟨"storage failure at step 0", ?_⟩
      simp only [index_project_body]
      rw [if_pos trivial]
    · by_cases hkn : k ≤ mods.length
      · obtain ⟨e, he⟩ := indexModulesTx_fails
          (find_or_create_project db name root).2 now k mods 1
          (find_or_create_project db name root).1 (by omega) (by omega)
        refine ⟨e, ?_⟩
        simp only [index_project_body]
        rw [if_neg (by simp [hk0]), he]
      · have hkeq : k = mods.length + 1 := by omega
        subst hkeq
        refine ⟨"storage failure at commit", ?_⟩
        simp only [index_project_body]
        rw [if_neg (by simp), indexModulesTx_ok_ge
          (find_or_create_project db name root).2 now (mods.length + 1) mods 1
          (find_or_create_project db name root).1 (by omega)]
        simp

/-- Witness for C2: a failure injected at the first module write of a
one-module call is reported as a failure, and the store paired with the
surfaced error is the unchanged pre-call store. -/
theorem claim_C2_index_project_atomicity_witness :
    exceptIsOk (index_project (some 1) emptyDB 0 "p" "/r" [c2Mi]) = false
    ∧ emptyDB = emptyDB := by
  constructor
  · exact (claim_C2_index_project_atomicity (some 1) emptyDB 0 "p" "/r"
      [c2Mi]).2.2 1 (by decide)
  · exact (claim_C2_index_project_atomicity (some 1) emptyDB 0 "p" "/r"
      [c2Mi]).1 "storage failure at step 1" emptyDB (by rfl)

/-! ### Claim C1 -/

/-- C1, refuted on the code: re-indexing an existing module deletes its
top-level functions (`class_id` null), class rows, imports and variables,
but the bulk class delete does not remove the method `Function` rows of
the deleted classes (no ORM cascade on a bulk delete, no database-level
cascade), so the functions table is NOT exactly the latest parse. After
indexing `/r/m.py` (class `C` with method `m`, top-level `f`) and
re-indexing it with a smaller parse (class `C` with method `m2`, no
top-level function), the functions table still holds the stale method `m`
of the first parse alongside the new `m2`, while the class table holds
only the new class row. -/
theorem claim_C1_stale_method_rows_after_reindex :
    c1Db2.functions.map (fun f => (f.name, f.class_id))
      = [("m", some 1), ("m2", some 2)]
    ∧ c1Db2.classes.map (fun c => (c.id, c.name)) = [(2, "C")]
    ∧ c1Db2.functions.filter (fun f => f.class_id == none) = []
    ∧ c1Db2.imports = [] ∧ c1Db2.vars = [] := by
  refine ⟨?_, ?_, ?_, ?_, ?_⟩ <;> decide

end Pycodex
